import Mathlib

/-!
Verification of the frame-indexing, grid-shape, layout-gridspec,
style-cycling, extent-finalization, legend and band-geometry logic of
holoviews/plotting/plot.py, via a shallow embedding of the relevant
functions and theorems checking the specified behaviour against them.
-/

namespace HV

/-! ### Frame indexing (Plot.update_frame, GridPlot.update_frame) -/

/-- Plot.update_frame key resolution (plot.py 297-311): the frame index is
clamped (`n = n if n < len(self) else len(self) - 1`) and the key at the
clamped index is looked up; an out-of-bounds list access is an IndexError. -/
def Plot.updateFrameKey (keys : List Nat) (n : Nat) : Except String Nat :=
  let m := if n < keys.length then n else keys.length - 1
  match keys.get? m with
  | some k => Except.ok k
  | none => Except.error "IndexError"

/-- GridPlot.update_frame key resolution (plot.py 501-505): the override reads
`key = self._keys[n]` with no clamping; an index beyond the key list raises
IndexError. -/
def GridPlot.updateFrameKey (keys : List Nat) (n : Nat) : Except String Nat :=
  match keys.get? n with
  | some k => Except.ok k
  | none => Except.error "IndexError"

/-! ### Plot.__getitem__ (plot.py 271-279) -/

/-- Outcome of `Plot.__getitem__`: whether the out-of-range warning fired and
which key ended up rendered. -/
structure FrameAccess where
  warned : Bool
  shownKey : Except String Nat

/-- Plot.__getitem__ (plot.py 271-279): warns when `frame > len(self)` and then
delegates to update_frame, which clamps the index. -/
def Plot.getItem (keys : List Nat) (frame : Nat) : FrameAccess :=
  { warned := decide (keys.length < frame)
    shownKey := Plot.updateFrameKey keys frame }

/-! ### Composite frame counts (GridPlot, AdjointLayoutPlot, LayoutPlot) -/

/-- GridPlot.__len__ (plot.py 508-509): `max([len(self._keys), 1])`. -/
def GridPlot.lenFrames (numKeys : Nat) : Nat := max numKeys 1

/-- AdjointLayoutPlot.__len__ (plot.py 613-615): the maximum of the lengths of
the keyed children of the layout with 1 appended to the candidate list. -/
def AdjointLayoutPlot.lenFrames (childLens : List Nat) : Nat :=
  (childLens ++ [1]).foldl max 0

/-- LayoutPlot.__len__ (plot.py 853-854): the maximum of the subplot lengths
with 1 appended to the candidate list. -/
def LayoutPlot.lenFrames (childLens : List Nat) : Nat :=
  (childLens ++ [1]).foldl max 0

/-! ### GridPlot shape computation (plot.py 358-362) -/

/-- GridPlot.__init__ shape, 1-dimensional branch (plot.py 358-359):
`self.rows, self.cols = (1, len(grid.keys()))`; returned as (rows, cols). -/
def GridPlot.shape1D (keys : List Int) : Nat × Nat := (1, keys.length)

/-- GridPlot.__init__ shape, 2-dimensional branch (plot.py 360-362):
`self.cols, self.rows = (len(set(x)), len(set(y)))` where x are the first and
y the second coordinates of the keys; returned as (rows, cols). -/
def GridPlot.shape2D (keys : List (Int × Int)) : Nat × Nat :=
  ((keys.map Prod.snd).dedup.length, (keys.map Prod.fst).dedup.length)

/-! ### Theorems: C1, C6, C10, C4 -/

/-- C1: the claim that `update_frame(n)` clamps for every plot kind fails for
GridPlot: with keys [10, 20] (two frames), `update_frame(2)` raises IndexError
in GridPlot.update_frame, while the base Plot.update_frame clamps to the last
frame exactly as its docstring promises. -/
theorem C1_gridplot_update_frame_raises :
    GridPlot.updateFrameKey [10, 20] 2 = Except.error "IndexError" ∧
    Plot.updateFrameKey [10, 20] 2 = Except.ok 20 ∧
    Plot.updateFrameKey [10, 20] 1 = Except.ok 20 :=
  ⟨rfl, rfl, rfl⟩

/-- C6 counterexample: at `frame = frame_count() = 2` the index is out of range
(the valid indices are 0 and 1) and the claim requires a warning, but the code
tests `frame > len(self)`, so `2 > 2` is false and no warning is emitted even
though the clamped last frame is shown. -/
theorem C6_no_warning_at_frame_count :
    (Plot.getItem [10, 20] 2).warned = false ∧
    (Plot.getItem [10, 20] 2).shownKey = Except.ok 20 :=
  ⟨rfl, rfl⟩

theorem list_getq_pred_length (l : List Nat) (h : l ≠ []) :
    l.get? (l.length - 1) = some (l.getLastD 0) := by
  induction l with
  | nil => exact absurd rfl h
  | cons x xs ih =>
    cases xs with
    | nil => rfl
    | cons y ys =>
      have hne : (y :: ys) ≠ ([] : List Nat) := by simp
      have := ih hne
      simpa [List.getLastD] using this

/-- C6 amended: for frame indices at or beyond the frame count the figure shown
is the one for the last available frame, and the warning fires exactly when the
index is strictly greater than the frame count (so `frame = frame_count()` is
clamped silently); no exception is raised. -/
theorem C6_getitem_clamps_warns_above_count (keys : List Nat) (frame : Nat)
    (h1 : keys ≠ []) (h2 : keys.length ≤ frame) :
    (Plot.getItem keys frame).shownKey = Except.ok (keys.getLastD 0) ∧
    ((Plot.getItem keys frame).warned = true ↔ keys.length < frame) := by
  constructor
  · show Plot.updateFrameKey keys frame = Except.ok (keys.getLastD 0)
    have hnlt : ¬ frame < keys.length := Nat.not_lt.mpr h2
    unfold Plot.updateFrameKey
    simp only [hnlt, if_false]
    rw [list_getq_pred_length keys h1]
  · simp [Plot.getItem]

/-- C6 witness: a two-frame plot accessed at frame 3 shows the last key and
warns, with both hypotheses of the amended theorem discharged concretely. -/
theorem C6_getitem_clamps_witness :
    (Plot.getItem [10, 20] 3).shownKey = Except.ok 20 ∧
    (Plot.getItem [10, 20] 3).warned = true := by
  have h := C6_getitem_clamps_warns_above_count [10, 20] 3 (by decide) (by decide)
  exact ⟨h.1, h.2.mpr (by decide)⟩

theorem foldl_max_append_one_ge (l : List Nat) : 1 ≤ (l ++ [1]).foldl max 0 := by
  rw [List.foldl_append]
  exact le_max_right _ _

/-- C10: the frame counts reported by GridPlot, AdjointLayoutPlot and
LayoutPlot are always at least 1, even with no keys or only zero-length
children, so frame index 0 is always addressable. -/
theorem C10_composite_len_at_least_one (numKeys : Nat) (ls ms : List Nat) :
    1 ≤ GridPlot.lenFrames numKeys ∧
    1 ≤ AdjointLayoutPlot.lenFrames ls ∧
    1 ≤ LayoutPlot.lenFrames ms :=
  ⟨le_max_right _ _, foldl_max_append_one_ge ls, foldl_max_append_one_ge ms⟩

/-- C4: a 1-dimensional key space yields one row of as many columns as keys;
a 2-dimensional key space yields cols equal to the number of distinct first
coordinates and rows equal to the number of distinct second coordinates, as on
the spec example with x-values {0,1,2} and y-values {0,1}. -/
theorem C4_grid_shape (keys1 : List Int) (keys : List (Int × Int)) :
    GridPlot.shape1D keys1 = (1, keys1.length) ∧
    GridPlot.shape2D keys =
      ((keys.map Prod.snd).toFinset.card, (keys.map Prod.fst).toFinset.card) ∧
    GridPlot.shape2D [(0, 0), (1, 0), (2, 0), (0, 1), (1, 1), (2, 1)] = (2, 3) := by
  refine ⟨rfl, ?_, by decide⟩
  simp [GridPlot.shape2D, List.card_toFinset]

/-! ### OverlayPlot._format_title value resolution (plot.py 967-976) -/

/-- OverlayPlot._format_title value substitution (plot.py 973-974):
`values[0] if len(set(values)) == 1 else ""` over the layer values of the
overlay frame. -/
def OverlayPlot.titleValue (values : List String) : String :=
  if values.dedup.length = 1 then values.headD "" else ""

theorem dedup_of_const (c : String) (l : List String) (h0 : l ≠ [])
    (h : ∀ v ∈ l, v = c) : l.dedup = [c] := by
  induction l with
  | nil => exact absurd rfl h0
  | cons x xs ih =>
    have hx : x = c := h x (List.mem_cons_self _ _)
    cases xs with
    | nil => simp [hx]
    | cons y ys =>
      have hxs : (y :: ys).dedup = [c] :=
        ih (by simp) (fun v hv => h v (List.mem_cons_of_mem _ hv))
      have hy : y = c := h y (by simp)
      have hmem : x ∈ y :: ys := by
        rw [hx, ← hy]
        exact List.mem_cons_self _ _
      rw [List.dedup_cons_of_mem hmem, hxs]

theorem dedup_length_ne_one (l : List String) (a b : String)
    (ha : a ∈ l) (hb : b ∈ l) (hne : a ≠ b) : l.dedup.length ≠ 1 := by
  intro h1
  obtain ⟨x, hx⟩ := List.length_eq_one.mp h1
  have haq : a ∈ l.dedup := List.mem_dedup.mpr ha
  have hbq : b ∈ l.dedup := List.mem_dedup.mpr hb
  rw [hx] at haq hbq
  simp only [List.mem_singleton] at haq hbq
  exact hne (haq.trans hbq.symm)

/-- C7: the {value} substitution of OverlayPlot titles is the single common
value when every layer of the overlay frame carries that value, and the empty
string when two layers carry different values. -/
theorem C7_overlay_title_value :
    (∀ (c : String) (values : List String), values ≠ [] → (∀ v ∈ values, v = c) →
      OverlayPlot.titleValue values = c) ∧
    (∀ (values : List String) (a b : String), a ∈ values → b ∈ values → a ≠ b →
      OverlayPlot.titleValue values = "") := by
  constructor
  · intro c values h0 h
    have hd := dedup_of_const c values h0 h
    have hlen : values.dedup.length = 1 := by rw [hd]; rfl
    have hhead : values.headD "" = c := by
      cases values with
      | nil => exact absurd rfl h0
      | cons x xs => exact h x (List.mem_cons_self _ _)
    simp only [OverlayPlot.titleValue, if_pos hlen, hhead]
  · intro values a b ha hb hne
    simp only [OverlayPlot.titleValue,
      if_neg (dedup_length_ne_one values a b ha hb hne)]

/-- C7 witness: a shared value ["a", "a"] resolves to "a" and disagreeing
values ["a", "b"] resolve to the empty string, with every hypothesis of the
theorem discharged at these concrete inputs. -/
theorem C7_overlay_title_value_witness :
    OverlayPlot.titleValue ["a", "a"] = "a" ∧
    OverlayPlot.titleValue ["a", "b"] = "" :=
  ⟨C7_overlay_title_value.1 "a" ["a", "a"] (by decide) (by decide),
   C7_overlay_title_value.2 ["a", "b"] "a" "b" (by decide) (by decide) (by decide)⟩

/-! ### OverlayPlot._adjust_legend (plot.py 952-965) -/

/-- OverlayPlot._adjust_legend (plot.py 952-965): returns the handle and label
lists handed to ax.legend, or none when no legend call is made. It first
returns early unless an axis and an existing legend object are present, then
calls `ax.legend(handles[::-1], labels[::-1], ...)` only when at least one
handle exists and show_legend is set. -/
def OverlayPlot.adjustLegend (hasAxis hasLegendObj showLegend : Bool)
    (handles : List Nat) (labels : List String) :
    Option (List Nat × List String) :=
  if !hasAxis || !hasLegendObj then none
  else if handles.length != 0 && showLegend then
    some (handles.reverse, labels.reverse)
  else none

/-- C8: with the legend shown and at least one drawable handle, the legend
lists handles and labels in the reverse of draw order; with zero handles no
legend is constructed and no error is raised. -/
theorem C8_legend_reversal :
    (∀ (handles : List Nat) (labels : List String), handles ≠ [] →
      OverlayPlot.adjustLegend true true true handles labels =
        some (handles.reverse, labels.reverse)) ∧
    (∀ (hasAxis hasLegendObj showLegend : Bool) (labels : List String),
      OverlayPlot.adjustLegend hasAxis hasLegendObj showLegend [] labels
        = none) := by
  constructor
  · intro handles labels h
    have hlen : handles.length ≠ 0 := fun hc => h (List.length_eq_zero.mp hc)
    simp [OverlayPlot.adjustLegend, hlen]
  · intro a b c labels
    cases a <;> cases b <;> cases c <;> simp [OverlayPlot.adjustLegend]

/-- C8 witness: handles [5, 6] with labels ["x", "y"] are displayed reversed,
and the empty handle list yields no legend call; the nonemptiness hypothesis
is discharged at the concrete input. -/
theorem C8_legend_reversal_witness :
    OverlayPlot.adjustLegend true true true [5, 6] ["x", "y"]
      = some ([6, 5], ["y", "x"]) ∧
    OverlayPlot.adjustLegend true true true [] ["x"] = none :=
  ⟨C8_legend_reversal.1 [5, 6] ["x", "y"] (by decide),
   C8_legend_reversal.2 true true true ["x"]⟩

/-! ### LayoutPlot._compute_gridspecs ratio recording (plot.py 646-695) -/

/-- The four fixed AdjointLayoutPlot layout templates (plot.py 525-537). -/
inductive LayoutType where
  | Single
  | Dual
  | Triple
  | EmbeddedDual
deriving DecidableEq

/-- AdjointLayoutPlot.layout_dict width_ratios (plot.py 525-537). -/
def widthRatios : LayoutType → List Nat
  | LayoutType.Single => [4]
  | LayoutType.Dual => [4, 1]
  | LayoutType.Triple => [4, 1]
  | LayoutType.EmbeddedDual => [4]

/-- AdjointLayoutPlot.layout_dict height_ratios (plot.py 525-537). -/
def heightRatios : LayoutType → List Nat
  | LayoutType.Single => [4]
  | LayoutType.Dual => [4]
  | LayoutType.Triple => [1, 4]
  | LayoutType.EmbeddedDual => [1, 4]

/-- Association-list read with a default, mirroring `dict.get(k, (0, None))`
whose second component is never read before being overwritten. -/
def alistGetD (m : List (Nat × Nat × List Nat)) (k : Nat) : Nat × List Nat :=
  match m with
  | [] => (0, [])
  | (k1, v) :: rest => if k = k1 then v else alistGetD rest k

/-- Association-list write, mirroring `dict[k] = v` (overwrite or append). -/
def alistSet (m : List (Nat × Nat × List Nat)) (k : Nat) (v : Nat × List Nat) :
    List (Nat × Nat × List Nat) :=
  match m with
  | [] => [(k, v)]
  | (k1, v1) :: rest =>
    if k = k1 then (k, v) :: rest else (k1, v1) :: alistSet rest k v

/-- The per-row and per-column ratio dictionaries built by
LayoutPlot._compute_gridspecs (plot.py 660). -/
structure RatioMaps where
  rowH : List (Nat × Nat × List Nat)
  colW : List (Nat × Nat × List Nat)

/-- One iteration of the recording loop (plot.py 666-679), exactly as coded:
`layout_shape = (len(width_ratios), len(height_ratios))`; the row entry is
replaced when `layout_shape[0]` exceeds the stored first component and stores
`(layout_shape[1], height_ratios)`; the column entry is replaced when
`layout_shape[1]` exceeds the stored first component and stores
`(layout_shape[0], width_ratios)`. -/
def recordCell (st : RatioMaps) (r c : Nat) (lt : LayoutType) : RatioMaps :=
  let wr := widthRatios lt
  let hr := heightRatios lt
  let st1 :=
    if wr.length > (alistGetD st.rowH r).1 then
      { st with rowH := alistSet st.rowH r (hr.length, hr) }
    else st
  if hr.length > (alistGetD st1.colW c).1 then
    { st1 with colW := alistSet st1.colW c (wr.length, wr) }
  else st1

/-- The recording loop over the scanline-ordered cells, each given as
(row, column, layout type); layout_lens (plot.py 668) maps a cell holding
1, 2 or 3 views to Single, Dual or Triple respectively. -/
def recordRatios (cells : List (Nat × Nat × LayoutType)) : RatioMaps :=
  cells.foldl (fun st cell => recordCell st cell.1 cell.2.1 cell.2.2) ⟨[], []⟩

def insertSorted (x : Nat) : List Nat → List Nat
  | [] => [x]
  | y :: ys => if x ≤ y then x :: y :: ys else y :: insertSorted x ys

def sortKeys : List Nat → List Nat
  | [] => []
  | x :: xs => insertSorted x (sortKeys xs)

/-- `[v[1] for k, v in sorted(d.items())]` (plot.py 682-683): the recorded
ratio lists in ascending key order. -/
def ratioLists (m : List (Nat × Nat × List Nat)) : List (List Nat) :=
  (sortKeys (m.map Prod.fst)).map (fun k => (alistGetD m k).2)

/-- LayoutPlot._compute_gridspecs sizing (plot.py 659-686): the global
gridspec shape (rows, cols) as the summed lengths of the recorded per-row
height-ratio and per-column width-ratio lists, returned together with those
lists. -/
def computeGridspecs (cells : List (Nat × Nat × LayoutType)) :
    (Nat × Nat) × List (List Nat) × List (List Nat) :=
  let st := recordRatios cells
  let hrs := ratioLists st.rowH
  let wrs := ratioLists st.colW
  (((hrs.map List.length).sum, (wrs.map List.length).sum), hrs, wrs)

/-- Modelled from the spec: the recording rule the claim (and the code comment
at plot.py 674-675) describes, keeping for every row the height ratios of the
cell with the most vertical splits and for every column the width ratios of
the cell with the most horizontal splits. -/
def recordCellSpec (st : RatioMaps) (r c : Nat) (lt : LayoutType) : RatioMaps :=
  let wr := widthRatios lt
  let hr := heightRatios lt
  let st1 :=
    if hr.length > (alistGetD st.rowH r).1 then
      { st with rowH := alistSet st.rowH r (hr.length, hr) }
    else st
  if wr.length > (alistGetD st1.colW c).1 then
    { st1 with colW := alistSet st1.colW c (wr.length, wr) }
  else st1

/-- The spec-described gridspec computation, identical to computeGridspecs
except for the recording rule. -/
def computeGridspecsSpec (cells : List (Nat × Nat × LayoutType)) :
    (Nat × Nat) × List (List Nat) × List (List Nat) :=
  let st := cells.foldl
    (fun st cell => recordCellSpec st cell.1 cell.2.1 cell.2.2) ⟨[], []⟩
  let hrs := ratioLists st.rowH
  let wrs := ratioLists st.colW
  (((hrs.map List.length).sum, (wrs.map List.length).sum), hrs, wrs)

/-- C2: in a two-row, one-column layout whose top cell is Single (one view)
and whose bottom cell is Dual (two views), the code records column width
ratios [[4]] and sizes the gridspec (rows, cols) = (2, 1), while the claim
requires the column to adopt the Dual pattern [[4, 1]] and shape (2, 2): the
recording condition compares the height-split count of the cell against the
stored width-split count, so the Dual cell never replaces the Single entry. -/
theorem C2_column_ratio_recording_bug :
    computeGridspecs [(0, 0, LayoutType.Single), (1, 0, LayoutType.Dual)]
      = ((2, 1), [[4], [4]], [[4]]) ∧
    computeGridspecsSpec [(0, 0, LayoutType.Single), (1, 0, LayoutType.Dual)]
      = ((2, 2), [[4], [4]], [[4, 1]]) :=
  ⟨rfl, rfl⟩

/-! ### OverlayPlot._create_subplots cyclic style indices (plot.py 869-885) -/

/-- itertools.groupby over the layer values: the maximal runs of consecutive
equal values, each with its length. -/
def runLengths : List Nat → List (Nat × Nat)
  | [] => []
  | x :: xs =>
    match runLengths xs with
    | [] => [(x, 1)]
    | (k, n) :: rest =>
      if x = k then (x, n + 1) :: rest else (x, 1) :: (k, n) :: rest

def alistGetDNat (m : List (Nat × Nat)) (k d : Nat) : Nat :=
  match m with
  | [] => d
  | (k1, v) :: rest => if k = k1 then v else alistGetDNat rest k d

def alistSetNat (m : List (Nat × Nat)) (k v : Nat) : List (Nat × Nat) :=
  match m with
  | [] => [(k, v)]
  | (k1, v1) :: rest =>
    if k = k1 then (k, v) :: rest else (k1, v1) :: alistSetNat rest k v

/-- The dict comprehension at plot.py 874-875: later groupby runs of the same
value overwrite earlier ones, so for each value only the enumerate iterator of
its LAST run survives; stored here as value -> length of that last run. -/
def styleGroupLens (values : List Nat) : List (Nat × Nat) :=
  (runLengths values).foldl (fun d kv => alistSetNat d kv.1 kv.2) []

/-- The per-layer loop at plot.py 876-877: each layer draws the next index
from its value group iterator; a draw beyond the stored run length is a
StopIteration. -/
def assignCyclic :
    List Nat → List (Nat × Nat) → List (Nat × Nat) → Except String (List Nat)
  | [], _, _ => Except.ok []
  | v :: vs, lens, used =>
    let c := alistGetDNat used v 0
    if c < alistGetDNat lens v 0 then
      match assignCyclic vs lens (alistSetNat used v (c + 1)) with
      | Except.ok rest => Except.ok (c :: rest)
      | Except.error e => Except.error e
    else Except.error "StopIteration"

/-- OverlayPlot._create_subplots cyclic index assignment (plot.py 869-885)
over the sequence of layer values. -/
def cyclicIndices (values : List Nat) : Except String (List Nat) :=
  assignCyclic values (styleGroupLens values) []

/-- C3: for layer values [A, B, A, C] (encoded 0, 1, 0, 2) the claim expects
cyclic indices [0, 0, 1, 0], but the code raises StopIteration at the third
layer: itertools.groupby groups only consecutive equal values and the dict
comprehension keeps only the last run per value, so the second appearance of
A exhausts the surviving one-element iterator. Consecutive duplicates do count
up, e.g. [A, A, B, C] gives [0, 1, 0, 0]. -/
theorem C3_cyclic_index_stopiteration :
    cyclicIndices [0, 1, 0, 2] = Except.error "StopIteration" ∧
    cyclicIndices [0, 0, 1, 2] = Except.ok [0, 1, 0, 0] :=
  ⟨rfl, rfl⟩

/-! ### Plot._finalize_axis extent handling (plot.py 235-239) -/

/-- A python extent coordinate: a rational number, positive or negative
infinity, NaN, or a non-real value (complex), the case np.isreal rejects. -/
inductive Coord where
  | num : ℚ → Coord
  | inf : Coord
  | ninf : Coord
  | nan : Coord
  | cplx : Coord
deriving DecidableEq

/-- np.isreal: true for every float (NaN and the infinities included), false
only for non-real values. -/
def Coord.isreal : Coord → Bool
  | Coord.cplx => false
  | _ => true

def Coord.isNaN : Coord → Bool
  | Coord.nan => true
  | _ => false

/-- `coord if np.isreal(coord) else np.NaN` (plot.py 236). -/
def sanitize (c : Coord) : Coord := if c.isreal then c else Coord.nan

/-- python `==` on coordinates: NaN compares unequal to everything, the
infinities compare equal to themselves, numbers by value. -/
def pyEq : Coord → Coord → Bool
  | Coord.num a, Coord.num b => decide (a = b)
  | Coord.inf, Coord.inf => true
  | Coord.ninf, Coord.ninf => true
  | _, _ => false

/-- `t += 1.`: adding one to a float leaves the infinities unchanged. -/
def addOne : Coord → Coord
  | Coord.num q => Coord.num (q + 1)
  | c => c

/-- `np.NaN in (a, b)`: membership of the NaN object in the pair (the
replaced coordinates are the np.NaN object itself, caught by identity). -/
def nanIn2 (a b : Coord) : Bool := a.isNaN || b.isNaN

/-- `if b == t: t += 1.` (plot.py 238), applied to t before the y-limit is
set. -/
def yAdjust (b t : Coord) : Coord := if pyEq b t then addOne t else t

/-- The axis limits applied by _finalize_axis; none means the corresponding
set_xlim/set_ylim call was skipped. -/
structure Limits where
  xlim : Option (Coord × Coord)
  ylim : Option (Coord × Coord)
deriving DecidableEq

/-- Plot._finalize_axis extent application (plot.py 235-239): non-real
coordinates are replaced by NaN, the x-limits are set unless NaN is among
(l, r), a zero-height y-range is widened by 1, and the y-limits are set
unless NaN is among (b, t). -/
def finalizeExtents (l0 b0 r0 t0 : Coord) : Limits :=
  { xlim :=
      if nanIn2 (sanitize l0) (sanitize r0) then none
      else some (sanitize l0, sanitize r0)
    ylim :=
      if nanIn2 (sanitize b0) (yAdjust (sanitize b0) (sanitize t0)) then none
      else some (sanitize b0, yAdjust (sanitize b0) (sanitize t0)) }

/-- C5 counterexample: extents (0, 0, inf, 1) have a non-finite right bound,
for which the claim requires the x-axis to stay unconstrained; the code sets
the x-limits to (0, inf) anyway, because np.isreal(inf) is true and inf is
not NaN, so only NaN (and non-real values replaced by NaN) are filtered. -/
theorem C5_inf_bound_constrains_axis :
    (finalizeExtents (Coord.num 0) (Coord.num 0) Coord.inf (Coord.num 1)).xlim
      = some (Coord.num 0, Coord.inf) := by
  decide

theorem sanitize_nan_of (c : Coord) (h : c.isreal = false ∨ c = Coord.nan) :
    (sanitize c).isNaN = true := by
  cases c <;> simp_all [sanitize, Coord.isreal, Coord.isNaN]

theorem sanitize_clean (c : Coord) (h1 : c ≠ Coord.nan) (h2 : c.isreal = true) :
    sanitize c = c ∧ (sanitize c).isNaN = false := by
  cases c <;> simp_all [sanitize, Coord.isreal, Coord.isNaN]

/-- C5 amended: a degenerate real y-extent b = t is widened to (b, t + 1); a
non-real coordinate (replaced by NaN) or a NaN coordinate leaves the
corresponding axis unconstrained and never reaches the axis; but real
non-finite coordinates (the infinities) are applied as axis limits verbatim.
No exception is raised in any case (the function is total). -/
theorem C5_extent_finalization_amended :
    (∀ (q : ℚ) (l r : Coord),
      (finalizeExtents l (Coord.num q) r (Coord.num q)).ylim
        = some (Coord.num q, Coord.num (q + 1))) ∧
    (∀ (l b r t : Coord),
      (l.isreal = false ∨ l = Coord.nan ∨ r.isreal = false ∨ r = Coord.nan) →
      (finalizeExtents l b r t).xlim = none) ∧
    (∀ (l b r t : Coord),
      (b.isreal = false ∨ b = Coord.nan ∨ t.isreal = false ∨ t = Coord.nan) →
      (finalizeExtents l b r t).ylim = none) ∧
    (∀ (l b r t : Coord), l ≠ Coord.nan → l.isreal = true →
      r ≠ Coord.nan → r.isreal = true →
      (finalizeExtents l b r t).xlim = some (l, r)) := by
  refine ⟨?_, ?_, ?_, ?_⟩
  · intro q l r
    simp [finalizeExtents, sanitize, Coord.isreal, nanIn2, yAdjust, pyEq,
      addOne, Coord.isNaN]
  · intro l b r t h
    have hn : nanIn2 (sanitize l) (sanitize r) = true := by
      rcases h with h | h | h | h
      · simp [nanIn2, sanitize_nan_of l (Or.inl h)]
      · simp [nanIn2, sanitize_nan_of l (Or.inr h)]
      · simp [nanIn2, sanitize_nan_of r (Or.inl h)]
      · simp [nanIn2, sanitize_nan_of r (Or.inr h)]
    simp [finalizeExtents, hn]
  · intro l b r t h
    rcases h with h | h | h | h
    · have hb := sanitize_nan_of b (Or.inl h)
      simp [finalizeExtents, nanIn2, hb]
    · have hb := sanitize_nan_of b (Or.inr h)
      simp [finalizeExtents, nanIn2, hb]
    · have ht := sanitize_nan_of t (Or.inl h)
      have hy : (yAdjust (sanitize b) (sanitize t)).isNaN = true := by
        have hsan : sanitize t = Coord.nan := by
          cases t <;> simp_all [sanitize, Coord.isreal, Coord.isNaN]
        rw [hsan]
        cases hsb : sanitize b <;>
          simp [yAdjust, pyEq, addOne, Coord.isNaN]
      simp [finalizeExtents, nanIn2, hy]
    · have hsan : sanitize t = Coord.nan := by
        rw [h]; rfl
      have hy : (yAdjust (sanitize b) (sanitize t)).isNaN = true := by
        rw [hsan]
        cases hsb : sanitize b <;>
          simp [yAdjust, pyEq, addOne, Coord.isNaN]
      simp [finalizeExtents, nanIn2, hy]
  · intro l b r t hl1 hl2 hr1 hr2
    obtain ⟨hle, hln⟩ := sanitize_clean l hl1 hl2
    obtain ⟨hre, hrn⟩ := sanitize_clean r hr1 hr2
    rw [hle] at hln
    rw [hre] at hrn
    simp [finalizeExtents, nanIn2, hle, hre, hln, hrn]

/-- C5 witness: the amended theorem applied at concrete extents, every
hypothesis discharged there: a degenerate y-range (2, 2) widens to (2, 3); a
complex left bound suppresses the x-limits; a NaN bottom bound suppresses the
y-limits; the finite extents (0, 5) are applied verbatim. -/
theorem C5_extent_finalization_witness :
    (finalizeExtents (Coord.num 0) (Coord.num 2) (Coord.num 5)
        (Coord.num 2)).ylim = some (Coord.num 2, Coord.num (2 + 1)) ∧
    (finalizeExtents Coord.cplx (Coord.num 0) (Coord.num 1)
        (Coord.num 2)).xlim = none ∧
    (finalizeExtents (Coord.num 0) Coord.nan (Coord.num 1)
        (Coord.num 2)).ylim = none ∧
    (finalizeExtents (Coord.num 0) (Coord.num 0) (Coord.num 5)
        (Coord.num 7)).xlim = some (Coord.num 0, Coord.num 5) :=
  ⟨C5_extent_finalization_amended.1 2 (Coord.num 0) (Coord.num 5),
   C5_extent_finalization_amended.2.1 Coord.cplx (Coord.num 0) (Coord.num 1)
     (Coord.num 2) (Or.inl rfl),
   C5_extent_finalization_amended.2.2.1 (Coord.num 0) Coord.nan (Coord.num 1)
     (Coord.num 2) (Or.inr (Or.inl rfl)),
   C5_extent_finalization_amended.2.2.2 (Coord.num 0) (Coord.num 0)
     (Coord.num 5) (Coord.num 7) (by decide) rfl (by decide) rfl⟩

/-! ### GridPlot._adjust_subplots (plot.py 472-498) -/

/-- A python object reached by the repositioning loop: either a matplotlib
axis or a (row, col) dictionary key tuple. -/
inductive PyHandle where
  | axisH : Nat → PyHandle
  | keyTupleH : Nat → Nat → PyHandle
deriving DecidableEq

/-- Attribute dispatch for `.set_position`: axis objects accept it; a
(row, col) tuple has no such attribute, which is an AttributeError. -/
def setPosition (h : PyHandle) (_pos : ℚ × ℚ × ℚ × ℚ) : Except String Unit :=
  match h with
  | PyHandle.axisH _ => Except.ok ()
  | PyHandle.keyTupleH _ _ => Except.error "AttributeError"

/-- `b_w = (w/10.) / (self.cols - 1)` with 0 for a single column
(plot.py 476-479). -/
def gapW (w : ℚ) (cols : Nat) : ℚ :=
  if cols = 1 then 0 else (w / 10) / ((cols - 1 : Nat) : ℚ)

/-- `b_h = (h/10.) / (self.rows - 1)` with 0 for a single row
(plot.py 481-484). -/
def gapH (h : ℚ) (rows : Nat) : ℚ :=
  if rows = 1 then 0 else (h / 10) / ((rows - 1 : Nat) : ℚ)

/-- `ax_w = (w - ((w/10.) if self.cols > 1 else 0)) / self.cols`
(plot.py 485). -/
def axW (w : ℚ) (cols : Nat) : ℚ :=
  (w - (if 1 < cols then w / 10 else 0)) / (cols : ℚ)

/-- `ax_h = (h - ((h/10.) if self.rows > 1 else 0)) / self.rows`
(plot.py 486). -/
def axH (h : ℚ) (rows : Nat) : ℚ :=
  (h - (if 1 < rows then h / 10 else 0)) / (rows : ℚ)

/-- The repositioning loop (plot.py 488-498): each iterand gets position
(l + c*ax_w + c*b_w, b + r*ax_h + r*b_h, ax_w, ax_h), advancing r down the
column and wrapping to the next column at the last row. -/
def adjustLoop (l b awidth aheight gw gh : ℚ) (rows : Nat) :
    List PyHandle → Nat → Nat → Except String Unit
  | [], _, _ => Except.ok ()
  | ax :: rest, r, c =>
    let xpos := l + (c : ℚ) * awidth + (c : ℚ) * gw
    let ypos := b + (r : ℚ) * aheight + (r : ℚ) * gh
    let rc := if r ≠ rows - 1 then (r + 1, c) else (0, c + 1)
    match setPosition ax (xpos, ypos, awidth, aheight) with
    | Except.ok _ => adjustLoop l b awidth aheight gw gh rows rest rc.1 rc.2
    | Except.error e => Except.error e

/-- GridPlot._adjust_subplots (plot.py 472-498): bbox is (l, b, w, h); the
loop header is `for ax in self.subaxes`, and self.subaxes is the dictionary
built by _create_subplots (plot.py 374-379), so the iteration yields its
(row, col) KEY tuples, each of which is then handed to set_position. -/
def adjustSubplots (bbox : ℚ × ℚ × ℚ × ℚ) (rows cols : Nat)
    (subaxes : List ((Nat × Nat) × PyHandle)) : Except String Unit :=
  let w := bbox.2.2.1
  let h := bbox.2.2.2
  adjustLoop bbox.1 bbox.2.1 (axW w cols) (axH h rows) (gapW w cols)
    (gapH h rows) rows
    (subaxes.map (fun p => PyHandle.keyTupleH p.1.1 p.1.2)) 0 0

/-- C9: repositioning never happens: already on a 1x1 grid with a single
subplot axis, _adjust_subplots raises AttributeError, because iterating the
subaxes dictionary yields its (row, col) key tuples and set_position is
called on a tuple instead of the stored axis. The band formulas themselves do
match the claim, e.g. width (w - w/10)/cols for two columns, no deduction for
a single column, and the w/10 gap split across cols - 1 gaps. -/
theorem C9_adjust_subplots_attribute_error :
    adjustSubplots (0, 0, 1, 1) 1 1 [((0, 0), PyHandle.axisH 0)]
      = Except.error "AttributeError" ∧
    axW 1 2 = (1 - 1 / 10) / 2 ∧
    axW 1 1 = 1 ∧
    gapW 1 2 = (1 / 10) / 1 := by
  refine ⟨rfl, by norm_num [axW], by norm_num [axW], by norm_num [gapW]⟩

end HV
